import Mathlib

/-!
Shallow embedding of the namespaced Redis cache client (src/redis/redis.go,
package cache) and proofs of the spec claims about it.

The underlying Redis driver is external to the repository.  It is modelled by
its observable behaviour: a `redisClient` is a pair of response functions (what
the driver answers to a SET and to a GET), and every backend call issued by
`Set`/`Get` is recorded in an explicit interaction `Trace` threaded through the
operations (the Go tests observe exactly this via a mock `redisClient`).
`time.Duration` is an int64 nanosecond count and is modelled as `Int`.
-/

namespace Cache

/-- The de facto Redis namespace delimiter (redis.go, `namespaceSeparator`). -/
def namespaceSeparator : String := ":"

/-- Errors produced by the underlying driver. `redisNil` models the driver
sentinel `redis.Nil` that reports an absent key; `other` models any other
driver error, identified by its message. -/
inductive RedisError
  | redisNil
  | other (msg : String)
  deriving DecidableEq

/-- Modelled from the spec: the error taxonomy of the cache package.  The
error constructors `NewInvalidExpiry`, `NewSetError`, `NewKeyNotFound` and
`NewGetError` live in a file of this repository that is not under src/; per
the spec, `SetError`, `KeyNotFound` and `GetError` carry the namespaced key,
and `SetError`/`GetError` also carry the underlying cause. -/
inductive CacheError
  | invalidExpiry
  | setError (key : String) (cause : RedisError)
  | keyNotFound (key : String)
  | getError (key : String) (cause : RedisError)
  deriving DecidableEq

/-- Go `time.Duration`: an int64 count of nanoseconds. -/
abbrev Duration := Int

/-- The interface used internally for cache operations (redis.go,
`redisClient`), modelled by its response functions: what the driver returns
for a SET (`StatusCmd.Err`) and for a GET (`StringCmd.Result`). -/
structure redisClient where
  setResp : String → String → Duration → Option RedisError
  getResp : String → String × Option RedisError

/-- The interaction trace with the backend: every SET and GET call issued,
with the arguments it was issued with. -/
structure Trace where
  setCalls : List (String × String × Duration)
  getCalls : List String
  deriving DecidableEq

/-- The trace before any backend interaction. -/
def Trace.empty : Trace := ⟨[], []⟩

/-- Issuing `client.Set(ctx, key, value, expiry)` against the driver: the
call is recorded in the trace and the driver's response is returned. -/
def redisClient.SetCmd (c : redisClient) (key value : String) (expiry : Duration)
    (t : Trace) : Option RedisError × Trace :=
  (c.setResp key value expiry, { t with setCalls := t.setCalls ++ [(key, value, expiry)] })

/-- Issuing `client.Get(ctx, key)` against the driver: the call is recorded
in the trace and the driver's `(value, err)` response is returned. -/
def redisClient.GetCmd (c : redisClient) (key : String) (t : Trace) :
    (String × Option RedisError) × Trace :=
  (c.getResp key, { t with getCalls := t.getCalls ++ [key] })

/-- Go constant `crypto/tls.VersionTLS12` (0x0303). -/
def VersionTLS12 : Nat := 0x0303

/-- The TLS client configuration, restricted to the single field the source
sets (`tls.Config{MinVersion: tls.VersionTLS12}`). -/
structure TLSConfig where
  MinVersion : Nat
  deriving DecidableEq

/-- The constructed driver connection (`redis.UniversalClient`): either a
cluster-aware client built by `redis.NewClusterClient` or a single-node
client built by `redis.NewClient`, each carrying exactly the construction
parameters the source passes. -/
inductive UniversalClient
  | clusterClient (addrs : List String) (password : String) (tlsConfig : Option TLSConfig)
  | client (addr : String) (password : String) (db : Int)
  deriving DecidableEq

/-- redis.go `redisOptions`: the resolved configuration of a RedisStore. -/
structure redisOptions where
  «namespace» : String
  clusterMode : Bool
  enableTLS : Bool
  deriving DecidableEq

/-- redis.go `RedisOption`: the three implementations `redisNamespace`,
`redisClusterMode` and `redisTLS`. -/
inductive RedisOption
  | redisNamespace (ns : String)
  | redisClusterMode (b : Bool)
  | redisTLS (b : Bool)
  deriving DecidableEq

/-- The `apply` method of each `RedisOption` implementation; the Go methods
mutate the options struct through a pointer, modelled as returning the
updated struct. -/
def RedisOption.apply : RedisOption → redisOptions → redisOptions
  | .redisNamespace ns, o => { o with «namespace» := ns }
  | .redisClusterMode b, o => { o with clusterMode := b }
  | .redisTLS b, o => { o with enableTLS := b }

/-- redis.go `WithRedisNamespace`. -/
def WithRedisNamespace (ns : String) : RedisOption := .redisNamespace ns

/-- redis.go `WithRedisClusterMode`. -/
def WithRedisClusterMode : RedisOption := .redisClusterMode true

/-- redis.go `WithRedisTLS`. -/
def WithRedisTLS : RedisOption := .redisTLS true

/-- redis.go `RedisStore`: a client handle plus the configured namespace.
The Go field `client` has the interface type `redisClient`; the type
parameter stands for whichever implementation is plugged in (the constructed
`UniversalClient`, or the response-function model for the operations). -/
structure RedisStore (Client : Type) where
  client : Client
  «namespace» : String

/-- redis.go `NewRedisStore`: resolve the options over the zero-valued
`redisOptions`, then construct either a cluster client (with a minimum-TLS
config when TLS is enabled) or a single-node client.  The otel
instrumentation calls are external and only panic on foreign client
implementations, which cannot happen for the two clients built here. -/
def NewRedisStore (address password : String) (options : List RedisOption) :
    RedisStore UniversalClient :=
  let opts := options.foldl (fun o option => option.apply o) ⟨"", false, false⟩
  let client :=
    if opts.clusterMode then
      let tlsConfig : Option TLSConfig :=
        if opts.enableTLS then some { MinVersion := VersionTLS12 } else none
      UniversalClient.clusterClient [address] password tlsConfig
    else
      UniversalClient.client address password 0
  { client := client, «namespace» := opts.«namespace» }

/-- redis.go `RedisConfig`. -/
structure RedisConfig where
  Address : String
  Password : String
  Namespace : String
  DisableClusterMode : Bool
  DisableTLS : Bool
  deriving DecidableEq

/-- redis.go `RedisConfig.options`: convert the configuration to the
equivalent `RedisOption` values. -/
def RedisConfig.options (c : RedisConfig) : List RedisOption :=
  let options : List RedisOption := []
  let options := if c.Namespace ≠ "" then options ++ [WithRedisNamespace c.Namespace] else options
  let options := if !c.DisableClusterMode then options ++ [WithRedisClusterMode] else options
  let options := if !c.DisableTLS then options ++ [WithRedisTLS] else options
  options

/-- redis.go `NewRedisStoreFromConfig`. -/
def NewRedisStoreFromConfig (config : RedisConfig) : RedisStore UniversalClient :=
  NewRedisStore config.Address config.Password config.options

/-- redis.go `namespaceKey`: prefix the key with the namespace if defined,
else return the key unmodified. -/
def RedisStore.namespaceKey {C : Type} (s : RedisStore C) (key : String) : String :=
  if s.«namespace» ≠ "" then s.«namespace» ++ namespaceSeparator ++ key else key

/-- redis.go `RedisStore.Set`: reject a zero expiry before any backend call,
otherwise namespace the key and issue the SET; a driver error is wrapped in a
`setError` carrying the namespaced key. -/
def RedisStore.Set (s : RedisStore redisClient) (key value : String) (expiry : Duration)
    (t : Trace) : Option CacheError × Trace :=
  if expiry = 0 then
    (some CacheError.invalidExpiry, t)
  else
    let key := s.namespaceKey key
    match s.client.SetCmd key value expiry t with
    | (some err, t) => (some (CacheError.setError key err), t)
    | (none, t) => (none, t)

/-- redis.go `RedisStore.Get`: namespace the key and issue the GET; the
driver sentinel `redis.Nil` is mapped to `keyNotFound`, any other driver
error to `getError`, both carrying the namespaced key, and the value returned
alongside an error is replaced by the empty string. -/
def RedisStore.Get (s : RedisStore redisClient) (key : String) (t : Trace) :
    (String × Option CacheError) × Trace :=
  let key := s.namespaceKey key
  match s.client.GetCmd key t with
  | ((value, err), t) =>
    match err with
    | some e =>
      if e = RedisError.redisNil then
        (("", some (CacheError.keyNotFound key)), t)
      else
        (("", some (CacheError.getError key e)), t)
    | none => ((value, none), t)

/-- A driver model whose SET always succeeds and whose GET always returns
the value "value". -/
def okClient : redisClient :=
  ⟨fun _ _ _ => none, fun _ => ("value", none)⟩

/-- A driver model that fails every SET and GET with the error "mock error". -/
def failClient : redisClient :=
  ⟨fun _ _ _ => some (RedisError.other "mock error"),
   fun _ => ("", some (RedisError.other "mock error"))⟩

/-- A driver model whose GET always reports the key absent (`redis.Nil`). -/
def nilClient : redisClient :=
  ⟨fun _ _ _ => none, fun _ => ("", some RedisError.redisNil)⟩

/-- Helper: a `Set` call with a non-zero expiry issues exactly one backend SET,
on the namespaced key, with the given value and expiry. -/
theorem Set_trace (s : RedisStore redisClient) (key value : String) (expiry : Duration)
    (t : Trace) (h : expiry ≠ 0) :
    (s.Set key value expiry t).2
      = { t with setCalls := t.setCalls ++ [(s.namespaceKey key, value, expiry)] } := by
  simp only [RedisStore.Set, redisClient.SetCmd, if_neg h]
  cases s.client.setResp (s.namespaceKey key) value expiry <;> rfl

/-- Helper: a `Get` call issues exactly one backend GET, on the namespaced key. -/
theorem Get_trace (s : RedisStore redisClient) (key : String) (t : Trace) :
    (s.Get key t).2 = { t with getCalls := t.getCalls ++ [s.namespaceKey key] } := by
  simp only [RedisStore.Get, redisClient.GetCmd]
  cases hg : s.client.getResp (s.namespaceKey key) with
  | mk v e =>
    cases e with
    | none => rfl
    | some e =>
      by_cases he : e = RedisError.redisNil
      · simp [he]
      · simp [he]

/-- C1: for every store and key, the namespaced key equals
`namespace ++ ":" ++ key` when the namespace is non-empty and equals the key
unchanged when the namespace is empty; and this namespaced key is exactly the
key sent to the backend by `Set` (whenever it reaches the backend, i.e. for a
non-zero expiry) and by `Get`. -/
theorem set_get_use_namespaced_key (s : RedisStore redisClient) (K : String) :
    (s.«namespace» ≠ "" → s.namespaceKey K = s.«namespace» ++ ":" ++ K) ∧
    (s.«namespace» = "" → s.namespaceKey K = K) ∧
    (∀ value expiry t, expiry ≠ 0 →
      (s.Set K value expiry t).2.setCalls
        = t.setCalls ++ [(s.namespaceKey K, value, expiry)]) ∧
    (∀ t, (s.Get K t).2.getCalls = t.getCalls ++ [s.namespaceKey K]) := by
  refine ⟨fun h => by simp [RedisStore.namespaceKey, namespaceSeparator, h],
          fun h => by simp [RedisStore.namespaceKey, h],
          fun value expiry t h => by rw [Set_trace s K value expiry t h],
          fun t => by rw [Get_trace s K t]⟩

/-- C1 witness: with namespace "example" the key "key" is namespaced to
"example:key", and Set records a backend call on exactly that key. -/
theorem set_get_use_namespaced_key_witness :
    (RedisStore.mk okClient "example").namespaceKey "key" = "example:key" ∧
    ((RedisStore.mk okClient "example").Set "key" "value" 3600000000000 Trace.empty).2.setCalls
      = [("example:key", "value", 3600000000000)] ∧
    ((RedisStore.mk okClient "").Get "key" Trace.empty).2.getCalls = ["key"] := by
  have h := set_get_use_namespaced_key (RedisStore.mk okClient "example") "key"
  have h0 := set_get_use_namespaced_key (RedisStore.mk okClient "") "key"
  refine ⟨h.1 (by decide), ?_, ?_⟩
  · have := h.2.2.1 "value" 3600000000000 Trace.empty (by decide)
    simpa [Trace.empty] using this
  · have := h0.2.2.2 Trace.empty
    simpa [Trace.empty] using this

/-- C2 counterexample: the claim predicts that every expiry not strictly
greater than zero is rejected with InvalidExpiry and no backend call; but at
expiry -1 (with a backend that accepts the SET) Set returns no error at all
and does issue a backend call. -/
theorem set_nonpositive_expiry_cex :
    ((RedisStore.mk okClient "").Set "key" "value" (-1) Trace.empty).1
      ≠ some CacheError.invalidExpiry ∧
    ((RedisStore.mk okClient "").Set "key" "value" (-1) Trace.empty).2.setCalls ≠ [] ∧
    ((RedisStore.mk okClient "").Set "key" "value" (-1) Trace.empty).1 = none ∧
    ((RedisStore.mk okClient "").Set "key" "value" (-1) Trace.empty).2.setCalls
      = [("key", "value", -1)] := by
  refine ⟨by decide, by decide, rfl, rfl⟩

/-- C2 (amended): Set rejects exactly the zero expiry: with expiry = 0 it
fails with InvalidExpiry and makes no backend call; with any non-zero expiry
(including negative ones) it does not return InvalidExpiry and issues the
backend SET on the namespaced key. -/
theorem set_expiry_validation (s : RedisStore redisClient) (key value : String)
    (expiry : Duration) (t : Trace) :
    (expiry = 0 → s.Set key value expiry t = (some CacheError.invalidExpiry, t)) ∧
    (expiry ≠ 0 →
      (s.Set key value expiry t).1 ≠ some CacheError.invalidExpiry ∧
      (s.Set key value expiry t).2.setCalls
        = t.setCalls ++ [(s.namespaceKey key, value, expiry)]) := by
  constructor
  · intro h
    subst h
    simp [RedisStore.Set]
  · intro h
    constructor
    · simp only [RedisStore.Set, redisClient.SetCmd, if_neg h]
      cases s.client.setResp (s.namespaceKey key) value expiry <;> simp
    · rw [Set_trace s key value expiry t h]

/-- C2 witness: expiry 0 is rejected with InvalidExpiry and no backend call;
expiry 1 is not rejected. -/
theorem set_expiry_validation_witness :
    (RedisStore.mk okClient "").Set "key" "value" 0 Trace.empty
      = (some CacheError.invalidExpiry, Trace.empty) ∧
    ((RedisStore.mk okClient "").Set "key" "value" 1 Trace.empty).1
      ≠ some CacheError.invalidExpiry := by
  exact ⟨(set_expiry_validation (RedisStore.mk okClient "") "key" "value" 0 Trace.empty).1 rfl,
    ((set_expiry_validation (RedisStore.mk okClient "") "key" "value" 1 Trace.empty).2
      (by decide)).1⟩

/-- C3: Set with expiry exactly zero fails with InvalidExpiry and returns the
trace unchanged — no backend call is issued — for every store, key and value. -/
theorem set_zero_expiry_invalid (s : RedisStore redisClient) (key value : String) (t : Trace) :
    s.Set key value 0 t = (some CacheError.invalidExpiry, t) := by
  simp [RedisStore.Set]

/-- C4: for Set with a strictly positive expiry: if the backend SET on the
namespaced key succeeds, Set returns no error; if it fails, Set returns a
SetError carrying the namespaced key and the underlying cause. -/
theorem set_backend_result (s : RedisStore redisClient) (key value : String)
    (expiry : Duration) (t : Trace) (h : 0 < expiry) :
    (s.client.setResp (s.namespaceKey key) value expiry = none →
      (s.Set key value expiry t).1 = none) ∧
    (∀ e, s.client.setResp (s.namespaceKey key) value expiry = some e →
      (s.Set key value expiry t).1
        = some (CacheError.setError (s.namespaceKey key) e)) := by
  have hne : expiry ≠ 0 := ne_of_gt h
  constructor
  · intro hb
    simp [RedisStore.Set, redisClient.SetCmd, if_neg hne, hb]
  · intro e hb
    simp [RedisStore.Set, redisClient.SetCmd, if_neg hne, hb]

/-- C4 witness: a succeeding backend yields no error; a failing backend
yields a SetError carrying the namespaced key and the cause. -/
theorem set_backend_result_witness :
    ((RedisStore.mk okClient "example").Set "key" "value" 3600000000000 Trace.empty).1 = none ∧
    ((RedisStore.mk failClient "").Set "key" "value" 3600000000000 Trace.empty).1
      = some (CacheError.setError "key" (RedisError.other "mock error")) := by
  constructor
  · exact (set_backend_result (RedisStore.mk okClient "example") "key" "value"
      3600000000000 Trace.empty (by decide)).1 rfl
  · exact (set_backend_result (RedisStore.mk failClient "") "key" "value"
      3600000000000 Trace.empty (by decide)).2 (RedisError.other "mock error") rfl

/-- C5: if the backend reports the namespaced key absent (the driver's
`redis.Nil` sentinel), Get returns the empty string together with a
KeyNotFound error carrying the namespaced key. -/
theorem get_key_not_found (s : RedisStore redisClient) (key : String) (t : Trace)
    (v : String) (h : s.client.getResp (s.namespaceKey key) = (v, some RedisError.redisNil)) :
    (s.Get key t).1 = ("", some (CacheError.keyNotFound (s.namespaceKey key))) := by
  simp [RedisStore.Get, redisClient.GetCmd, h]

/-- C5 witness: with namespace "example" and an always-absent backend, Get
returns ("", KeyNotFound "example:key"). -/
theorem get_key_not_found_witness :
    ((RedisStore.mk nilClient "example").Get "key" Trace.empty).1
      = ("", some (CacheError.keyNotFound "example:key")) := by
  have := get_key_not_found (RedisStore.mk nilClient "example") "key" Trace.empty "" rfl
  simpa using this

/-- C6: if the backend GET on the namespaced key succeeds with value v, Get
returns exactly v and no error. -/
theorem get_success (s : RedisStore redisClient) (key : String) (t : Trace)
    (v : String) (h : s.client.getResp (s.namespaceKey key) = (v, none)) :
    (s.Get key t).1 = (v, none) := by
  simp [RedisStore.Get, redisClient.GetCmd, h]

/-- C6 witness: a backend returning "value" with no error makes Get return
exactly ("value", no error). -/
theorem get_success_witness :
    ((RedisStore.mk okClient "example").Get "key" Trace.empty).1 = ("value", none) :=
  get_success (RedisStore.mk okClient "example") "key" Trace.empty "value" rfl

/-- C7: if the backend GET on the namespaced key fails with any error other
than the absence sentinel, Get returns the empty string together with a
GetError carrying the namespaced key and the underlying cause. -/
theorem get_backend_error (s : RedisStore redisClient) (key : String) (t : Trace)
    (v : String) (e : RedisError)
    (h : s.client.getResp (s.namespaceKey key) = (v, some e))
    (hne : e ≠ RedisError.redisNil) :
    (s.Get key t).1 = ("", some (CacheError.getError (s.namespaceKey key) e)) := by
  simp [RedisStore.Get, redisClient.GetCmd, h, hne]

/-- C7 witness: a backend failing with "mock error" makes Get return
("", GetError "key" (other "mock error")). -/
theorem get_backend_error_witness :
    ((RedisStore.mk failClient "").Get "key" Trace.empty).1
      = ("", some (CacheError.getError "key" (RedisError.other "mock error"))) := by
  have := get_backend_error (RedisStore.mk failClient "") "key" Trace.empty ""
    (RedisError.other "mock error") rfl (by decide)
  simpa using this

/-- C8: when the resolved options have cluster mode off, the constructed
client is a single-node client with no TLS configuration, whatever the TLS
flag resolved to; when cluster mode and TLS are both on, the constructed
client is a cluster client configured with minimum protocol version TLS 1.2. -/
theorem cluster_mode_connection (address password : String) (options : List RedisOption) :
    ((options.foldl (fun o option => option.apply o) (redisOptions.mk "" false false)).clusterMode
        = false →
      (NewRedisStore address password options).client
        = UniversalClient.client address password 0) ∧
    ((options.foldl (fun o option => option.apply o) (redisOptions.mk "" false false)).clusterMode
        = true →
      (options.foldl (fun o option => option.apply o) (redisOptions.mk "" false false)).enableTLS
        = true →
      (NewRedisStore address password options).client
        = UniversalClient.clusterClient [address] password (some ⟨VersionTLS12⟩)) := by
  constructor
  · intro h
    simp [NewRedisStore, h]
  · intro h h2
    simp [NewRedisStore, h, h2]

/-- C8 witness: with only the TLS option (cluster mode off) the client is
single-node with no TLS configuration; with cluster mode and TLS on it is a
cluster client with a TLS 1.2 minimum. -/
theorem cluster_mode_connection_witness :
    (NewRedisStore "addr" "pw" [WithRedisTLS]).client
      = UniversalClient.client "addr" "pw" 0 ∧
    (NewRedisStore "addr" "pw" [WithRedisClusterMode, WithRedisTLS]).client
      = UniversalClient.clusterClient ["addr"] "pw" (some ⟨VersionTLS12⟩) := by
  exact ⟨(cluster_mode_connection "addr" "pw" [WithRedisTLS]).1 rfl,
    (cluster_mode_connection "addr" "pw" [WithRedisClusterMode, WithRedisTLS]).2 rfl rfl⟩

/-- C9: a strictly negative expiry is not rejected as InvalidExpiry; the call
is passed through to the backend SET on the namespaced key. -/
theorem set_negative_expiry_passthrough (s : RedisStore redisClient) (key value : String)
    (expiry : Duration) (t : Trace) (h : expiry < 0) :
    (s.Set key value expiry t).1 ≠ some CacheError.invalidExpiry ∧
    (s.Set key value expiry t).2.setCalls
      = t.setCalls ++ [(s.namespaceKey key, value, expiry)] := by
  have hne : expiry ≠ 0 := ne_of_lt h
  constructor
  · simp only [RedisStore.Set, redisClient.SetCmd, if_neg hne]
    cases s.client.setResp (s.namespaceKey key) value expiry <;> simp
  · rw [Set_trace s key value expiry t hne]

/-- C9 witness: expiry -5 is not rejected as InvalidExpiry and reaches the
backend. -/
theorem set_negative_expiry_passthrough_witness :
    ((RedisStore.mk failClient "example").Set "key" "value" (-5) Trace.empty).1
      ≠ some CacheError.invalidExpiry ∧
    ((RedisStore.mk failClient "example").Set "key" "value" (-5) Trace.empty).2.setCalls
      = [("example:key", "value", -5)] := by
  have h := set_negative_expiry_passthrough (RedisStore.mk failClient "example")
    "key" "value" (-5) Trace.empty (by decide)
  exact ⟨h.1, by simpa [Trace.empty] using h.2⟩

/-- C10: NewRedisStore with no options resolves to cluster mode off, TLS off
and empty namespace, constructing a single-node client; NewRedisStoreFromConfig
on a zero-value configuration (both disable flags false) resolves to cluster
mode on with TLS on, constructing a cluster client. -/
theorem default_construction_differs (address password : String) :
    (([] : List RedisOption).foldl (fun o option => option.apply o)
        (redisOptions.mk "" false false) = redisOptions.mk "" false false) ∧
    (NewRedisStore address password []).client = UniversalClient.client address password 0 ∧
    (NewRedisStore address password []).«namespace» = "" ∧
    ((RedisConfig.mk address password "" false false).options.foldl
        (fun o option => option.apply o) (redisOptions.mk "" false false)
      = redisOptions.mk "" true true) ∧
    (NewRedisStoreFromConfig (RedisConfig.mk address password "" false false)).client
      = UniversalClient.clusterClient [address] password (some ⟨VersionTLS12⟩) := by
  refine ⟨rfl, rfl, rfl, ?_, ?_⟩ <;>
    simp [RedisConfig.options, NewRedisStoreFromConfig, NewRedisStore, RedisOption.apply,
      WithRedisClusterMode, WithRedisTLS, WithRedisNamespace, List.foldl]

end Cache
